import Mathlib

/-!
Verification development for the face-detection hook
(`src/hooks/useFaceDetection.ts`).

The numeric model uses exact rationals (`ℚ`) for the JavaScript number
arithmetic that occurs here (all constants are short decimal literals and
every quantity stays well inside the double-exact range, so the JS float
semantics and ℚ agree on the modelled operations, with one caveat noted at
`validateFaceBox`).  Channel values read from the canvas RGBA buffer are
8-bit naturals.  The off-screen raster readback is modelled as a function
from working-space coordinates to RGB triples; the DOM/raster failure modes
are modelled as explicit booleans of the detection environment.
-/

/-- FaceBox record (fields `x`, `y`, `width`, `height`), source-image units. -/
structure FaceBox where
  x : ℚ
  y : ℚ
  width : ℚ
  height : ℚ
deriving DecidableEq

/-- FaceDetectionResult as constructed at its single construction site
(lines 59-63 of the source): a face box plus the two landmark percentages.
The caller-visible value is `Option FaceDetectionResult` (`null` ↦ `none`). -/
structure FaceDetectionResult where
  face : FaceBox
  eyeLineY : ℚ
  chinY : ℚ
deriving DecidableEq

/-- Model of `isSkinTone(r, g, b)` (lines 160-172): YCbCr conversion and the
fixed threshold test, with all comparisons strict. -/
def isSkinTone (r g b : ℚ) : Bool :=
  let y := 0.299 * r + 0.587 * g + 0.114 * b
  let cb := 128 - 0.169 * r - 0.331 * g + 0.5 * b
  let cr := 128 + 0.5 * r - 0.419 * g - 0.081 * b
  y > 80 && cb > 77 && cb < 127 && cr > 133 && cr < 173

/-- Model of the scan loop (lines 104-119): for each row `y < h` (outer loop)
and column `x < w` (inner loop) classify the raster's RGB triple at `(x, y)`
and collect the coordinates of skin-classified pixels, in scan order. -/
def skinPixels (w h : ℕ) (img : ℕ → ℕ → ℕ × ℕ × ℕ) : List (ℕ × ℕ) :=
  (List.range h).flatMap (fun y =>
    (List.range w).filterMap (fun x =>
      let c := img x y
      if isSkinTone c.1 c.2.1 c.2.2 then some (x, y) else none))

/-- Accumulator for the bounding-box loop: the four mutable variables
`minX`, `maxX`, `minY`, `maxY` of lines 127-134. -/
structure BBoxAcc where
  minX : ℕ
  maxX : ℕ
  minY : ℕ
  maxY : ℕ
deriving DecidableEq

/-- One iteration of the bounding-box loop body (lines 129-134). -/
def bboxStep (a : BBoxAcc) (p : ℕ × ℕ) : BBoxAcc :=
  ⟨min a.minX p.1, max a.maxX p.1, min a.minY p.2, max a.maxY p.2⟩

/-- The bounding-box loop (lines 127-134): fold over the collected skin
pixels starting from `minX = canvas.width`, `maxX = 0`, `minY = canvas.height`,
`maxY = 0`. -/
def boundingBox (w h : ℕ) (ps : List (ℕ × ℕ)) : BBoxAcc :=
  ps.foldl bboxStep ⟨w, 0, h, 0⟩

/-- Candidate face box built from the bounding box (lines 136-146):
`fullHeight = maxY - minY`, `headHeight = fullHeight * 0.6`, then all four
values rescaled to source-image units by dividing by `scale`. -/
def candidateFaceBox (scale : ℚ) (bb : BBoxAcc) : FaceBox :=
  let fullHeight : ℚ := (bb.maxY : ℚ) - (bb.minY : ℚ)
  let headHeight : ℚ := fullHeight * 0.6
  { x := (bb.minX : ℚ) / scale
    y := (bb.minY : ℚ) / scale
    width := ((bb.maxX : ℚ) - (bb.minX : ℚ)) / scale
    height := headHeight / scale }

/-- Aspect-ratio validation (lines 148-156): reject when
`width / height` falls outside `[0.5, 1.5]`, otherwise return the box
unchanged.  In ℚ a division by zero yields 0, so a zero-height box is
rejected here (ratio `0 < 0.5`); in JS a zero-height box with positive width
gives ratio `Infinity > 1.5` and is likewise rejected.  (The remaining
`0/0` point would need a single repeated coordinate only, which a raster
scan never produces together with the 100-pixel minimum.) -/
def validateFaceBox (faceBox : FaceBox) : Option FaceBox :=
  let aspectRatio := faceBox.width / faceBox.height
  if aspectRatio < 0.5 ∨ aspectRatio > 1.5 then none
  else some faceBox

/-- Core of `detectFaceWithCanvas` after the raster readback
(lines 104-156): scan, require at least 100 skin pixels, take the bounding
box, build the candidate box and validate it. -/
def detectFaceScan (w h : ℕ) (scale : ℚ) (img : ℕ → ℕ → ℕ × ℕ × ℕ) :
    Option FaceBox :=
  let ps := skinPixels w h img
  if ps.length < 100 then none
  else validateFaceBox (candidateFaceBox scale (boundingBox w h ps))

/-- Downscale factor of line 96: `min(300 / naturalWidth, 300 / naturalHeight)`
with the working cap `maxSize = 300`. -/
def canvasScale (naturalWidth naturalHeight : ℕ) : ℚ :=
  min (300 / (naturalWidth : ℚ)) (300 / (naturalHeight : ℚ))

/-- Canvas dimension assignment of lines 97-98: `naturalDim * scale`
truncated to the integer pixel grid (the IDL `unsigned long` conversion
truncates; the value here is always nonnegative, so truncation is `⌊⌋`). -/
def canvasDim (naturalDim : ℕ) (scale : ℚ) : ℕ :=
  (⌊(naturalDim : ℚ) * scale⌋).toNat

/-- Working-raster width for given native dimensions. -/
def workingWidth (naturalWidth naturalHeight : ℕ) : ℕ :=
  canvasDim naturalWidth (canvasScale naturalWidth naturalHeight)

/-- Working-raster height for given native dimensions. -/
def workingHeight (naturalWidth naturalHeight : ℕ) : ℕ :=
  canvasDim naturalHeight (canvasScale naturalWidth naturalHeight)

/-- Outcome of the optional platform `FaceDetector` call: a list of face
rectangles, or a rejected promise. -/
inductive NativeOutcome where
  | faces (fs : List FaceBox)
  | failure

/-- Environment of one `detectFace` invocation: the feature-detection
constant, the platform detector's behaviour, whether `getContext('2d')`
returns a context, whether `drawImage`/`getImageData` throws (decode
failure), the image's native dimensions and the working-raster readback. -/
structure DetectEnv where
  supported : Bool
  native : NativeOutcome
  ctxAvailable : Bool
  rasterFault : Bool
  naturalWidth : ℕ
  naturalHeight : ℕ
  raster : ℕ → ℕ → ℕ × ℕ × ℕ

/-- Model of `detectFaceWithCanvas` (lines 85-158): resolves `none` when no
2D context is obtainable (lines 89-92), rejects when the raster operations
throw, and otherwise runs the scan pipeline on the working raster. -/
def detectFaceWithCanvas (env : DetectEnv) : Except Unit (Option FaceBox) :=
  if env.ctxAvailable = false then Except.ok none
  else if env.rasterFault = true then Except.error ()
  else Except.ok (detectFaceScan
    (workingWidth env.naturalWidth env.naturalHeight)
    (workingHeight env.naturalWidth env.naturalHeight)
    (canvasScale env.naturalWidth env.naturalHeight)
    env.raster)

/-- Face-box acquisition of lines 29-48: the platform detector when
supported (first rectangle of its result, a rejection propagating as an
error), otherwise the canvas fallback. -/
def getFaceBox (env : DetectEnv) : Except Unit (Option FaceBox) :=
  if env.supported then
    match env.native with
    | NativeOutcome.failure => Except.error ()
    | NativeOutcome.faces fs => Except.ok fs.head?
  else detectFaceWithCanvas env

/-- Landmark estimation of lines 55-57: eye line at 35% from the top of the
face box and chin at its bottom, both as percentages of the native image
height, unclamped. -/
def computeLandmarks (faceBox : FaceBox) (imgHeight : ℚ) : ℚ × ℚ :=
  (((faceBox.y + faceBox.height * 0.35) / imgHeight) * 100,
   ((faceBox.y + faceBox.height) / imgHeight) * 100)

/-- Hook state: the `isDetecting` busy flag and the `detectionResult`
cache. -/
structure HookState where
  isDetecting : Bool
  detectionResult : Option FaceDetectionResult
deriving DecidableEq

/-- Model of `detectFace` (lines 23-79).  Returns the value resolved to the
caller together with the successive hook states after each state update:
`setIsDetecting(true)` first, then on the success path
`setDetectionResult(result); setIsDetecting(false)`, on the no-box path
`setDetectionResult(null); setIsDetecting(false)`, and on the catch path
`setIsDetecting(false); setDetectionResult(null)`.  Every fault from
`getFaceBox` is absorbed by the catch branch; the function is total, so no
fault is ever propagated to the caller. -/
def detectFace (env : DetectEnv) (s : HookState) :
    Option FaceDetectionResult × List HookState :=
  let detecting : HookState := ⟨true, s.detectionResult⟩
  match getFaceBox env with
  | Except.error _ =>
      (none, [detecting, ⟨false, s.detectionResult⟩, ⟨false, none⟩])
  | Except.ok none =>
      (none, [detecting, ⟨true, none⟩, ⟨false, none⟩])
  | Except.ok (some faceBox) =>
      let lm := computeLandmarks faceBox (env.naturalHeight : ℚ)
      let result : FaceDetectionResult := ⟨faceBox, lm.1, lm.2⟩
      (some result, [detecting, ⟨true, some result⟩, ⟨false, some result⟩])

/-- Hook state after a `detectFace` invocation settles. -/
def finalState (env : DetectEnv) (s : HookState) : HookState :=
  ((detectFace env s).2).getLastD s

/-- Spec-side predicate: the four values are the coordinate-wise minima and
maxima over the collected coordinates (each bound holds for every member and
is attained by some member). -/
def coordExtrema (minX maxX minY maxY : ℕ) (ps : List (ℕ × ℕ)) : Prop :=
  (∀ p ∈ ps, minX ≤ p.1 ∧ p.1 ≤ maxX ∧ minY ≤ p.2 ∧ p.2 ≤ maxY) ∧
  (∃ p ∈ ps, p.1 = minX) ∧ (∃ p ∈ ps, p.1 = maxX) ∧
  (∃ p ∈ ps, p.2 = minY) ∧ (∃ p ∈ ps, p.2 = maxY)

/-- Raster that is pure blue everywhere (blue is not skin-classified). -/
def blueRaster : ℕ → ℕ → ℕ × ℕ × ℕ := fun _ _ => (0, 0, 255)

/-- Raster that holds a skin-classified colour everywhere. -/
def skinRaster : ℕ → ℕ → ℕ × ℕ × ℕ := fun _ _ => (150, 100, 100)

/-- Environment: no platform detector, drawable context, blue 1x300 image. -/
def envHeuristicBlue : DetectEnv :=
  ⟨false, NativeOutcome.faces [], true, false, 1, 300, blueRaster⟩

/-- Environment: no platform detector, drawable context, skin 300x300
image. -/
def envHeuristicSkin : DetectEnv :=
  ⟨false, NativeOutcome.faces [], true, false, 300, 300, skinRaster⟩

/-- Environment: platform detector present and rejecting. -/
def envNativeFailure : DetectEnv :=
  ⟨true, NativeOutcome.failure, true, false, 1, 1, blueRaster⟩

/-- Environment: platform detector present, returning no faces. -/
def envNativeNoFaces : DetectEnv :=
  ⟨true, NativeOutcome.faces [], true, false, 1, 1, blueRaster⟩

/-- Environment: no platform detector and no drawable 2D context. -/
def envNoCtx : DetectEnv :=
  ⟨false, NativeOutcome.faces [], false, false, 1, 1, blueRaster⟩

/-- Idle hook state with an empty result cache. -/
def idleState : HookState := ⟨false, none⟩

/-- The bounding-box fold only shrinks `minX`/`minY` and grows
`maxX`/`maxY` relative to the initial accumulator. -/
theorem foldl_bboxStep_init_le (ps : List (ℕ × ℕ)) (a : BBoxAcc) :
    (ps.foldl bboxStep a).minX ≤ a.minX ∧ a.maxX ≤ (ps.foldl bboxStep a).maxX ∧
    (ps.foldl bboxStep a).minY ≤ a.minY ∧ a.maxY ≤ (ps.foldl bboxStep a).maxY := by
  induction ps generalizing a with
  | nil => simp
  | cons q t ih =>
    simp only [List.foldl_cons]
    obtain ⟨h1, h2, h3, h4⟩ := ih (bboxStep a q)
    refine ⟨le_trans h1 ?_, le_trans ?_ h2, le_trans h3 ?_, le_trans ?_ h4⟩
    · exact min_le_left _ _
    · exact le_max_left _ _
    · exact min_le_left _ _
    · exact le_max_left _ _

/-- The bounding-box fold result bounds every member of the list. -/
theorem foldl_bboxStep_mem (ps : List (ℕ × ℕ)) (a : BBoxAcc) (p : ℕ × ℕ)
    (hp : p ∈ ps) :
    (ps.foldl bboxStep a).minX ≤ p.1 ∧ p.1 ≤ (ps.foldl bboxStep a).maxX ∧
    (ps.foldl bboxStep a).minY ≤ p.2 ∧ p.2 ≤ (ps.foldl bboxStep a).maxY := by
  induction ps generalizing a with
  | nil => cases hp
  | cons q t ih =>
    simp only [List.foldl_cons]
    rcases List.mem_cons.mp hp with h | h
    · subst h
      obtain ⟨h1, h2, h3, h4⟩ := foldl_bboxStep_init_le t (bboxStep a p)
      refine ⟨le_trans h1 ?_, le_trans ?_ h2, le_trans h3 ?_, le_trans ?_ h4⟩
      · exact min_le_right _ _
      · exact le_max_right _ _
      · exact min_le_right _ _
      · exact le_max_right _ _
    · exact ih (bboxStep a q) h

/-- Each component of the bounding-box fold result is either the initial
value or attained by some member of the list. -/
theorem foldl_bboxStep_attained (ps : List (ℕ × ℕ)) (a : BBoxAcc) :
    ((ps.foldl bboxStep a).minX = a.minX ∨ ∃ p ∈ ps, (ps.foldl bboxStep a).minX = p.1) ∧
    ((ps.foldl bboxStep a).maxX = a.maxX ∨ ∃ p ∈ ps, (ps.foldl bboxStep a).maxX = p.1) ∧
    ((ps.foldl bboxStep a).minY = a.minY ∨ ∃ p ∈ ps, (ps.foldl bboxStep a).minY = p.2) ∧
    ((ps.foldl bboxStep a).maxY = a.maxY ∨ ∃ p ∈ ps, (ps.foldl bboxStep a).maxY = p.2) := by
  induction ps generalizing a with
  | nil => simp
  | cons q t ih =>
    simp only [List.foldl_cons]
    obtain ⟨i1, i2, i3, i4⟩ := ih (bboxStep a q)
    refine ⟨?_, ?_, ?_, ?_⟩
    · rcases i1 with h | ⟨p, hp, he⟩
      · rw [h]
        simp only [bboxStep]
        rcases le_total a.minX q.1 with hle | hle
        · exact Or.inl (min_eq_left hle)
        · exact Or.inr ⟨q, List.mem_cons_self q t, min_eq_right hle⟩
      · exact Or.inr ⟨p, List.mem_cons_of_mem q hp, he⟩
    · rcases i2 with h | ⟨p, hp, he⟩
      · rw [h]
        simp only [bboxStep]
        rcases le_total a.maxX q.1 with hle | hle
        · exact Or.inr ⟨q, List.mem_cons_self q t, max_eq_right hle⟩
        · exact Or.inl (max_eq_left hle)
      · exact Or.inr ⟨p, List.mem_cons_of_mem q hp, he⟩
    · rcases i3 with h | ⟨p, hp, he⟩
      · rw [h]
        simp only [bboxStep]
        rcases le_total a.minY q.2 with hle | hle
        · exact Or.inl (min_eq_left hle)
        · exact Or.inr ⟨q, List.mem_cons_self q t, min_eq_right hle⟩
      · exact Or.inr ⟨p, List.mem_cons_of_mem q hp, he⟩
    · rcases i4 with h | ⟨p, hp, he⟩
      · rw [h]
        simp only [bboxStep]
        rcases le_total a.maxY q.2 with hle | hle
        · exact Or.inr ⟨q, List.mem_cons_self q t, max_eq_right hle⟩
        · exact Or.inl (max_eq_left hle)
      · exact Or.inr ⟨p, List.mem_cons_of_mem q hp, he⟩

/-- Every collected skin coordinate lies inside the working raster. -/
theorem skinPixels_coord_lt (w h : ℕ) (img : ℕ → ℕ → ℕ × ℕ × ℕ) (p : ℕ × ℕ)
    (hp : p ∈ skinPixels w h img) : p.1 < w ∧ p.2 < h := by
  simp only [skinPixels, List.mem_flatMap, List.mem_filterMap,
    List.mem_range] at hp
  obtain ⟨y, hy, x, hx, hxy⟩ := hp
  by_cases hc :
      isSkinTone ((img x y).1 : ℚ) ((img x y).2.1 : ℚ) ((img x y).2.2 : ℚ) = true
  · rw [if_pos hc] at hxy
    cases hxy
    exact ⟨hx, hy⟩
  · rw [if_neg hc] at hxy
    cases hxy

/-- On a raster of constant skin-classified colour, the scan collects every
coordinate of the working raster. -/
theorem skinPixels_const_skin (w h : ℕ) (img : ℕ → ℕ → ℕ × ℕ × ℕ)
    (c : ℕ × ℕ × ℕ) (himg : ∀ x y, img x y = c)
    (hc : isSkinTone (c.1 : ℚ) (c.2.1 : ℚ) (c.2.2 : ℚ) = true) :
    skinPixels w h img =
      (List.range h).flatMap (fun y => (List.range w).map (fun x => (x, y))) := by
  simp only [skinPixels, himg, hc, if_true]
  congr 1
  funext y
  exact List.filterMap_eq_map_iff_forall_eq_some.mpr (fun x _ => rfl)

/-- On a raster of constant non-skin colour, the scan collects nothing. -/
theorem skinPixels_const_nonskin (w h : ℕ) (img : ℕ → ℕ → ℕ × ℕ × ℕ)
    (c : ℕ × ℕ × ℕ) (himg : ∀ x y, img x y = c)
    (hc : isSkinTone (c.1 : ℚ) (c.2.1 : ℚ) (c.2.2 : ℚ) = false) :
    skinPixels w h img = [] := by
  simp [skinPixels, himg, hc]

/-- The sample colour (150, 100, 100) is skin-classified. -/
theorem isSkinTone_sample :
    isSkinTone ((150 : ℕ) : ℚ) ((100 : ℕ) : ℚ) ((100 : ℕ) : ℚ) = true := by
  simp only [isSkinTone, Bool.and_eq_true, decide_eq_true_eq]
  norm_num

/-- Pure blue (0, 0, 255) is not skin-classified. -/
theorem isSkinTone_blue :
    isSkinTone ((0 : ℕ) : ℚ) ((0 : ℕ) : ℚ) ((255 : ℕ) : ℚ) = false := by
  simp only [isSkinTone]
  norm_num

/-- The downscale factor is positive for a real image (both native
dimensions at least one pixel). -/
theorem canvasScale_pos (naturalWidth naturalHeight : ℕ)
    (hw : 1 ≤ naturalWidth) (hh : 1 ≤ naturalHeight) :
    0 < canvasScale naturalWidth naturalHeight := by
  have hw' : (0 : ℚ) < naturalWidth := by exact_mod_cast hw
  have hh' : (0 : ℚ) < naturalHeight := by exact_mod_cast hh
  exact lt_min (div_pos (by norm_num) hw') (div_pos (by norm_num) hh')

/-- Unfolding of the scan pipeline when at least 100 skin pixels were
collected. -/
theorem detectFaceScan_eq_validate (w h : ℕ) (scale : ℚ)
    (img : ℕ → ℕ → ℕ × ℕ × ℕ) (hlen : ¬(skinPixels w h img).length < 100) :
    detectFaceScan w h scale img =
      validateFaceBox (candidateFaceBox scale (boundingBox w h (skinPixels w h img))) := by
  simp only [detectFaceScan]
  rw [if_neg hlen]

/-- A box accepted by the validator is the candidate itself and its aspect
ratio is inside `[0.5, 1.5]`. -/
theorem validateFaceBox_eq_some (fb box : FaceBox)
    (hv : validateFaceBox fb = some box) :
    box = fb ∧ 0.5 ≤ fb.width / fb.height ∧ fb.width / fb.height ≤ 1.5 := by
  simp only [validateFaceBox] at hv
  by_cases hc : fb.width / fb.height < 0.5 ∨ fb.width / fb.height > 1.5
  · rw [if_pos hc] at hv
    cases hv
  · rw [if_neg hc] at hv
    push_neg at hc
    cases hv
    exact ⟨rfl, hc.1, hc.2⟩

/-- A zero-height box is rejected by the validator: the ℚ aspect ratio is
`width / 0 = 0 < 0.5` (in JS the ratio is `Infinity > 1.5` whenever the
width is positive, likewise rejected). -/
theorem validateFaceBox_height_zero (fb : FaceBox) (h0 : fb.height = 0) :
    validateFaceBox fb = none := by
  simp only [validateFaceBox, h0, div_zero]
  rw [if_pos]
  exact Or.inl (by norm_num)

/-- Facts about any box returned by the scan pipeline: its aspect ratio was
validated, and (when the downscale factor is positive) its corner is
nonnegative and both sides are positive. -/
theorem detectFaceScan_some_facts (w h : ℕ) (scale : ℚ)
    (img : ℕ → ℕ → ℕ × ℕ × ℕ) (fb : FaceBox)
    (hdet : detectFaceScan w h scale img = some fb) :
    (0.5 ≤ fb.width / fb.height ∧ fb.width / fb.height ≤ 1.5) ∧
    (0 < scale → 0 ≤ fb.x ∧ 0 ≤ fb.y ∧ 0 < fb.height ∧ 0 < fb.width) := by
  by_cases hlen : (skinPixels w h img).length < 100
  · rw [show detectFaceScan w h scale img = none by
      simp only [detectFaceScan]; rw [if_pos hlen]] at hdet
    cases hdet
  · rw [detectFaceScan_eq_validate w h scale img hlen] at hdet
    obtain ⟨hfb, hr1, hr2⟩ := validateFaceBox_eq_some _ _ hdet
    subst hfb
    refine ⟨⟨hr1, hr2⟩, fun hscale => ?_⟩
    have hne : skinPixels w h img ≠ [] := by
      intro he
      rw [he] at hlen
      simp at hlen
    obtain ⟨p0, hp0⟩ := List.exists_mem_of_ne_nil _ hne
    have hb := foldl_bboxStep_mem (skinPixels w h img) ⟨w, 0, h, 0⟩ p0 hp0
    have hyy : ((boundingBox w h (skinPixels w h img)).minY : ℚ) ≤
        ((boundingBox w h (skinPixels w h img)).maxY : ℚ) := by
      have : (boundingBox w h (skinPixels w h img)).minY ≤
          (boundingBox w h (skinPixels w h img)).maxY :=
        le_trans hb.2.2.1 hb.2.2.2
      exact_mod_cast this
    have hx : 0 ≤ (candidateFaceBox scale (boundingBox w h (skinPixels w h img))).x := by
      simp only [candidateFaceBox]
      exact div_nonneg (Nat.cast_nonneg _) hscale.le
    have hy : 0 ≤ (candidateFaceBox scale (boundingBox w h (skinPixels w h img))).y := by
      simp only [candidateFaceBox]
      exact div_nonneg (Nat.cast_nonneg _) hscale.le
    have hhges : 0 ≤ (candidateFaceBox scale (boundingBox w h (skinPixels w h img))).height := by
      simp only [candidateFaceBox]
      have hnum : (0 : ℚ) ≤ (((boundingBox w h (skinPixels w h img)).maxY : ℚ) -
          ((boundingBox w h (skinPixels w h img)).minY : ℚ)) * 0.6 :=
        mul_nonneg (by linarith) (by norm_num)
      exact div_nonneg hnum hscale.le
    have hhpos : 0 < (candidateFaceBox scale (boundingBox w h (skinPixels w h img))).height := by
      rcases lt_or_eq_of_le hhges with hlt | heq
      · exact hlt
      · exfalso
        rw [validateFaceBox_height_zero _ heq.symm] at hdet
        cases hdet
    have hwpos : 0 < (candidateFaceBox scale (boundingBox w h (skinPixels w h img))).width := by
      have := (le_div_iff₀ hhpos).mp hr1
      nlinarith
    exact ⟨hx, hy, hhpos, hwpos⟩

/-- C1: for every colour sample with channels in [0, 255], the classifier
returns true iff `luma > 80` and `77 < chromaBlue < 127` and
`133 < chromaRed < 173` (with the YCbCr formulas of the source); in
particular it returns false whenever `luma ≤ 80`, and whenever chromaBlue
or chromaRed sits exactly on a boundary value — all comparisons are
strict. -/
theorem c1_skin_classifier (r g b : ℚ)
    (hr0 : 0 ≤ r) (hr1 : r ≤ 255) (hg0 : 0 ≤ g) (hg1 : g ≤ 255)
    (hb0 : 0 ≤ b) (hb1 : b ≤ 255) :
    (isSkinTone r g b = true ↔
      (0.299 * r + 0.587 * g + 0.114 * b > 80 ∧
       (77 < 128 - 0.169 * r - 0.331 * g + 0.5 * b ∧
        128 - 0.169 * r - 0.331 * g + 0.5 * b < 127) ∧
       (133 < 128 + 0.5 * r - 0.419 * g - 0.081 * b ∧
        128 + 0.5 * r - 0.419 * g - 0.081 * b < 173))) ∧
    (0.299 * r + 0.587 * g + 0.114 * b ≤ 80 → isSkinTone r g b = false) ∧
    ((128 - 0.169 * r - 0.331 * g + 0.5 * b = 77 ∨
      128 - 0.169 * r - 0.331 * g + 0.5 * b = 127 ∨
      128 + 0.5 * r - 0.419 * g - 0.081 * b = 133 ∨
      128 + 0.5 * r - 0.419 * g - 0.081 * b = 173) →
      isSkinTone r g b = false) := by
  refine ⟨?_, ?_, ?_⟩
  · simp only [isSkinTone, Bool.and_eq_true, decide_eq_true_eq]
    tauto
  · intro hluma
    cases hst : isSkinTone r g b with
    | false => rfl
    | true =>
      simp only [isSkinTone, Bool.and_eq_true, decide_eq_true_eq] at hst
      obtain ⟨⟨⟨⟨h1, h2⟩, h3⟩, h4⟩, h5⟩ := hst
      linarith
  · intro hbd
    cases hst : isSkinTone r g b with
    | false => rfl
    | true =>
      simp only [isSkinTone, Bool.and_eq_true, decide_eq_true_eq] at hst
      obtain ⟨⟨⟨⟨h1, h2⟩, h3⟩, h4⟩, h5⟩ := hst
      rcases hbd with he | he | he | he <;> linarith

/-- Witness for C1 at the in-range sample (150, 100, 100). -/
theorem c1_skin_classifier_witness :
    ((0 : ℚ) ≤ 150 ∧ (150 : ℚ) ≤ 255 ∧ (0 : ℚ) ≤ 100 ∧ (100 : ℚ) ≤ 255) ∧
    ((isSkinTone 150 100 100 = true ↔
      (0.299 * (150 : ℚ) + 0.587 * 100 + 0.114 * 100 > 80 ∧
       (77 < 128 - 0.169 * (150 : ℚ) - 0.331 * 100 + 0.5 * 100 ∧
        128 - 0.169 * (150 : ℚ) - 0.331 * 100 + 0.5 * 100 < 127) ∧
       (133 < 128 + 0.5 * (150 : ℚ) - 0.419 * 100 - 0.081 * 100 ∧
        128 + 0.5 * (150 : ℚ) - 0.419 * 100 - 0.081 * 100 < 173))) ∧
    (0.299 * (150 : ℚ) + 0.587 * 100 + 0.114 * 100 ≤ 80 →
      isSkinTone 150 100 100 = false) ∧
    ((128 - 0.169 * (150 : ℚ) - 0.331 * 100 + 0.5 * 100 = 77 ∨
      128 - 0.169 * (150 : ℚ) - 0.331 * 100 + 0.5 * 100 = 127 ∨
      128 + 0.5 * (150 : ℚ) - 0.419 * 100 - 0.081 * 100 = 133 ∨
      128 + 0.5 * (150 : ℚ) - 0.419 * 100 - 0.081 * 100 = 173) →
      isSkinTone 150 100 100 = false)) :=
  ⟨⟨by norm_num, by norm_num, by norm_num, by norm_num⟩,
   c1_skin_classifier 150 100 100 (by norm_num) (by norm_num) (by norm_num)
     (by norm_num) (by norm_num) (by norm_num)⟩

/-- C3: for every FaceBox and native height at least 1, the landmark
estimator produces exactly
`eyeLineY = ((y + height * 0.35) / nativeHeight) * 100` and
`chinY = ((y + height) / nativeHeight) * 100`; with `y = 100`,
`height = 200`, `nativeHeight = 1000` this gives `eyeLineY = 17` and
`chinY = 30`; neither value is clamped to `[0, 100]` (both landmarks can
exceed 100, and the eye line can be negative). -/
theorem c3_landmark_formulas (faceBox : FaceBox) (nativeHeight : ℕ)
    (hH : 1 ≤ nativeHeight) :
    computeLandmarks faceBox (nativeHeight : ℚ) =
      (((faceBox.y + faceBox.height * 0.35) / (nativeHeight : ℚ)) * 100,
       ((faceBox.y + faceBox.height) / (nativeHeight : ℚ)) * 100) ∧
    computeLandmarks ⟨0, 100, 0, 200⟩ ((1000 : ℚ)) = (17, 30) ∧
    100 < (computeLandmarks ⟨0, 950, 0, 200⟩ ((1000 : ℚ))).1 ∧
    100 < (computeLandmarks ⟨0, 950, 0, 200⟩ ((1000 : ℚ))).2 ∧
    (computeLandmarks ⟨0, -500, 0, 100⟩ ((1000 : ℚ))).1 < 0 := by
  refine ⟨rfl, ?_, ?_, ?_, ?_⟩
  · simp only [computeLandmarks, Prod.mk.injEq]
    norm_num
  · simp only [computeLandmarks]
    norm_num
  · simp only [computeLandmarks]
    norm_num
  · simp only [computeLandmarks]
    norm_num

/-- Witness for C3 at the spec's worked example. -/
theorem c3_landmark_formulas_witness :
    1 ≤ 1000 ∧
    (computeLandmarks ⟨0, 100, 0, 200⟩ ((1000 : ℕ) : ℚ) =
      ((((100 : ℚ) + 200 * 0.35) / ((1000 : ℕ) : ℚ)) * 100,
       (((100 : ℚ) + 200) / ((1000 : ℕ) : ℚ)) * 100) ∧
    computeLandmarks ⟨0, 100, 0, 200⟩ ((1000 : ℚ)) = (17, 30) ∧
    100 < (computeLandmarks ⟨0, 950, 0, 200⟩ ((1000 : ℚ))).1 ∧
    100 < (computeLandmarks ⟨0, 950, 0, 200⟩ ((1000 : ℚ))).2 ∧
    (computeLandmarks ⟨0, -500, 0, 100⟩ ((1000 : ℚ))).1 < 0) := by
  have h := c3_landmark_formulas ⟨0, 100, 0, 200⟩ 1000 (by norm_num)
  exact ⟨by norm_num, h⟩

/-- C5: any candidate face box whose aspect ratio `width / height` lies
outside `[0.5, 1.5]` is rejected by the validator as no-detection (no
correction or re-centering is attempted — the validator either returns its
input unchanged or `none`); in particular a box with width 10 and height
100 (ratio 0.1) is rejected, and every box the scan pipeline does return
has a ratio inside `[0.5, 1.5]`. -/
theorem c5_aspect_rejection :
    (∀ faceBox : FaceBox,
      faceBox.width / faceBox.height < 0.5 ∨ faceBox.width / faceBox.height > 1.5 →
      validateFaceBox faceBox = none) ∧
    validateFaceBox ⟨0, 0, 10, 100⟩ = none ∧
    (∀ (w h : ℕ) (scale : ℚ) (img : ℕ → ℕ → ℕ × ℕ × ℕ),
      (detectFaceScan w h scale img).elim True
        (fun fb => 0.5 ≤ fb.width / fb.height ∧ fb.width / fb.height ≤ 1.5)) := by
  refine ⟨?_, ?_, ?_⟩
  · intro fb hfb
    simp only [validateFaceBox]
    rw [if_pos hfb]
  · norm_num [validateFaceBox]
  · intro w h scale img
    cases hdet : detectFaceScan w h scale img with
    | none => trivial
    | some fb => exact (detectFaceScan_some_facts w h scale img fb hdet).1

/-- Witness for C5: the validator applied to the width-10, height-100 box. -/
theorem c5_aspect_rejection_witness :
    ((FaceBox.mk 0 0 10 100).width / (FaceBox.mk 0 0 10 100).height < 0.5 ∨
      (FaceBox.mk 0 0 10 100).width / (FaceBox.mk 0 0 10 100).height > 1.5) ∧
    validateFaceBox ⟨0, 0, 10, 100⟩ = none :=
  ⟨Or.inl (by norm_num), c5_aspect_rejection.1 ⟨0, 0, 10, 100⟩ (Or.inl (by norm_num))⟩

/-- C6: when the collected skin region is a single row (the bounding box
has `maxY = minY`, so the candidate height is zero), the aspect-ratio step
cannot fault — in this model the division is total, and in JS it yields
`Infinity`/`NaN` rather than throwing — and the scan pipeline reports no
detection. -/
theorem c6_degenerate_row (w h : ℕ) (scale : ℚ) (img : ℕ → ℕ → ℕ × ℕ × ℕ)
    (hlen : 100 ≤ (skinPixels w h img).length)
    (hrow : (boundingBox w h (skinPixels w h img)).maxY =
      (boundingBox w h (skinPixels w h img)).minY) :
    detectFaceScan w h scale img = none := by
  rw [detectFaceScan_eq_validate w h scale img (by omega)]
  apply validateFaceBox_height_zero
  simp [candidateFaceBox, hrow]

set_option maxRecDepth 10000 in
/-- Witness for C6: a 100-by-1 working raster of constant skin colour has
100 skin pixels, all in one row, and the scan reports no detection. -/
theorem c6_degenerate_row_witness :
    (100 ≤ (skinPixels 100 1 skinRaster).length ∧
      (boundingBox 100 1 (skinPixels 100 1 skinRaster)).maxY =
      (boundingBox 100 1 (skinPixels 100 1 skinRaster)).minY) ∧
    detectFaceScan 100 1 1 skinRaster = none := by
  have hpix : skinPixels 100 1 skinRaster =
      (List.range 1).flatMap (fun y => (List.range 100).map (fun x => (x, y))) :=
    skinPixels_const_skin 100 1 skinRaster (150, 100, 100) (fun _ _ => rfl)
      isSkinTone_sample
  have h1 : 100 ≤ (skinPixels 100 1 skinRaster).length := by
    rw [hpix]; decide
  have h2 : (boundingBox 100 1 (skinPixels 100 1 skinRaster)).maxY =
      (boundingBox 100 1 (skinPixels 100 1 skinRaster)).minY := by
    rw [hpix]; decide
  exact ⟨⟨h1, h2⟩, c6_degenerate_row 100 1 1 skinRaster h1 h2⟩

/-- C9: after every `detectFace` invocation settles — result produced,
no detection, or fault — the busy flag is false again; the run did pass
through the Detecting state first. -/
theorem c9_returns_to_idle (env : DetectEnv) (s : HookState) :
    (finalState env s).isDetecting = false ∧
    (detectFace env s).2.head? = some ⟨true, s.detectionResult⟩ := by
  cases hg : getFaceBox env with
  | error e => simp [finalState, detectFace, hg]
  | ok o => cases o <;> simp [finalState, detectFace, hg]

/-- Bounding-box loop result in terms of `boundingBox`: the result bounds
every member of the list. -/
theorem boundingBox_bounds (w h : ℕ) (ps : List (ℕ × ℕ)) (p : ℕ × ℕ)
    (hp : p ∈ ps) :
    (boundingBox w h ps).minX ≤ p.1 ∧ p.1 ≤ (boundingBox w h ps).maxX ∧
    (boundingBox w h ps).minY ≤ p.2 ∧ p.2 ≤ (boundingBox w h ps).maxY :=
  foldl_bboxStep_mem ps ⟨w, 0, h, 0⟩ p hp

/-- Bounding-box loop result in terms of `boundingBox`: each component is
the initial value or attained by a member. -/
theorem boundingBox_attained (w h : ℕ) (ps : List (ℕ × ℕ)) :
    ((boundingBox w h ps).minX = w ∨ ∃ p ∈ ps, (boundingBox w h ps).minX = p.1) ∧
    ((boundingBox w h ps).maxX = 0 ∨ ∃ p ∈ ps, (boundingBox w h ps).maxX = p.1) ∧
    ((boundingBox w h ps).minY = h ∨ ∃ p ∈ ps, (boundingBox w h ps).minY = p.2) ∧
    ((boundingBox w h ps).maxY = 0 ∨ ∃ p ∈ ps, (boundingBox w h ps).maxY = p.2) :=
  foldl_bboxStep_attained ps ⟨w, 0, h, 0⟩

/-- C2: whenever at least 100 skin pixels are collected, the candidate box
submitted to aspect-ratio validation is exactly `x = minX / scale`,
`y = minY / scale`, `width = (maxX - minX) / scale`,
`height = 0.6 * (maxY - minY) / scale`, where the four values are the
coordinate-wise minima and maxima over the collected skin coordinates. -/
theorem c2_candidate_box (w h : ℕ) (scale : ℚ) (img : ℕ → ℕ → ℕ × ℕ × ℕ)
    (hlen : 100 ≤ (skinPixels w h img).length) :
    ∃ minX maxX minY maxY : ℕ,
      coordExtrema minX maxX minY maxY (skinPixels w h img) ∧
      detectFaceScan w h scale img = validateFaceBox
        { x := (minX : ℚ) / scale, y := (minY : ℚ) / scale,
          width := ((maxX : ℚ) - (minX : ℚ)) / scale,
          height := 0.6 * ((maxY : ℚ) - (minY : ℚ)) / scale } := by
  have hne : skinPixels w h img ≠ [] := by
    intro he
    rw [he] at hlen
    simp at hlen
  obtain ⟨p0, hp0⟩ := List.exists_mem_of_ne_nil _ hne
  refine ⟨(boundingBox w h (skinPixels w h img)).minX,
    (boundingBox w h (skinPixels w h img)).maxX,
    (boundingBox w h (skinPixels w h img)).minY,
    (boundingBox w h (skinPixels w h img)).maxY,
    ⟨fun p hp => boundingBox_bounds w h (skinPixels w h img) p hp, ?_, ?_, ?_, ?_⟩, ?_⟩
  · rcases (boundingBox_attained w h (skinPixels w h img)).1 with hinit | ⟨p, hp, he⟩
    · exfalso
      have h1 := (boundingBox_bounds w h (skinPixels w h img) p0 hp0).1
      have h2 := (skinPixels_coord_lt w h img p0 hp0).1
      omega
    · exact ⟨p, hp, he.symm⟩
  · rcases (boundingBox_attained w h (skinPixels w h img)).2.1 with hinit | ⟨p, hp, he⟩
    · have h1 := (boundingBox_bounds w h (skinPixels w h img) p0 hp0).2.1
      exact ⟨p0, hp0, by omega⟩
    · exact ⟨p, hp, he.symm⟩
  · rcases (boundingBox_attained w h (skinPixels w h img)).2.2.1 with hinit | ⟨p, hp, he⟩
    · exfalso
      have h1 := (boundingBox_bounds w h (skinPixels w h img) p0 hp0).2.2.1
      have h2 := (skinPixels_coord_lt w h img p0 hp0).2
      omega
    · exact ⟨p, hp, he.symm⟩
  · rcases (boundingBox_attained w h (skinPixels w h img)).2.2.2 with hinit | ⟨p, hp, he⟩
    · have h1 := (boundingBox_bounds w h (skinPixels w h img) p0 hp0).2.2.2
      exact ⟨p0, hp0, by omega⟩
    · exact ⟨p, hp, he.symm⟩
  · rw [detectFaceScan_eq_validate w h scale img (by omega)]
    congr 1
    simp only [candidateFaceBox, FaceBox.mk.injEq]
    refine ⟨trivial, trivial, trivial, by ring⟩

/-- Witness for C2: a 10-by-10 working raster of constant skin colour
collects exactly 100 skin pixels. -/
theorem c2_candidate_box_witness :
    100 ≤ (skinPixels 10 10 skinRaster).length ∧
    (∃ minX maxX minY maxY : ℕ,
      coordExtrema minX maxX minY maxY (skinPixels 10 10 skinRaster) ∧
      detectFaceScan 10 10 1 skinRaster = validateFaceBox
        { x := (minX : ℚ) / 1, y := (minY : ℚ) / 1,
          width := ((maxX : ℚ) - (minX : ℚ)) / 1,
          height := 0.6 * ((maxY : ℚ) - (minY : ℚ)) / 1 }) := by
  have hpix : skinPixels 10 10 skinRaster =
      (List.range 10).flatMap (fun y => (List.range 10).map (fun x => (x, y))) :=
    skinPixels_const_skin 10 10 skinRaster (150, 100, 100) (fun _ _ => rfl)
      isSkinTone_sample
  have h1 : 100 ≤ (skinPixels 10 10 skinRaster).length := by
    rw [hpix]; decide
  exact ⟨h1, c2_candidate_box 10 10 1 skinRaster h1⟩

/-- C4: when the working-raster scan classifies fewer than 100 pixels as
skin, the scan pipeline reports no detection, and — with no platform
detector available — the caller-visible result of `detectFace` is absent
and so is the cached result. -/
theorem c4_insufficient_pixels (env : DetectEnv) (s : HookState)
    (hsup : env.supported = false)
    (hlen : (skinPixels (workingWidth env.naturalWidth env.naturalHeight)
      (workingHeight env.naturalWidth env.naturalHeight)
      env.raster).length < 100) :
    detectFaceScan (workingWidth env.naturalWidth env.naturalHeight)
      (workingHeight env.naturalWidth env.naturalHeight)
      (canvasScale env.naturalWidth env.naturalHeight) env.raster = none ∧
    (detectFace env s).1 = none ∧
    (finalState env s).detectionResult = none := by
  have hscan : detectFaceScan (workingWidth env.naturalWidth env.naturalHeight)
      (workingHeight env.naturalWidth env.naturalHeight)
      (canvasScale env.naturalWidth env.naturalHeight) env.raster = none := by
    simp only [detectFaceScan]
    rw [if_pos hlen]
  have hget : getFaceBox env = Except.error () ∨ getFaceBox env = Except.ok none := by
    have hgf : getFaceBox env = detectFaceWithCanvas env := by
      simp [getFaceBox, hsup]
    rw [hgf]
    by_cases hctx : env.ctxAvailable = false
    · exact Or.inr (by simp [detectFaceWithCanvas, hctx])
    · by_cases hrf : env.rasterFault = true
      · exact Or.inl (by simp [detectFaceWithCanvas, hctx, hrf])
      · exact Or.inr (by simp [detectFaceWithCanvas, hctx, hrf, hscan])
  refine ⟨hscan, ?_, ?_⟩
  · rcases hget with hg | hg <;> simp [detectFace, hg]
  · rcases hget with hg | hg <;> simp [finalState, detectFace, hg]

/-- Working-raster width of a 1-by-300 native image is 1. -/
theorem workingWidth_one_300 : workingWidth 1 300 = 1 := by
  have hsc : canvasScale 1 300 = 1 := by
    unfold canvasScale
    norm_num [min_def]
  unfold workingWidth canvasDim
  rw [hsc]
  norm_num

/-- Working-raster height of a 1-by-300 native image is 300. -/
theorem workingHeight_one_300 : workingHeight 1 300 = 300 := by
  have hsc : canvasScale 1 300 = 1 := by
    unfold canvasScale
    norm_num [min_def]
  unfold workingHeight canvasDim
  rw [hsc]
  norm_num
  decide

/-- Witness for C4: an all-blue 1-by-300 native image yields no skin pixel
at all, and the caller sees an absent result. -/
theorem c4_insufficient_pixels_witness :
    (envHeuristicBlue.supported = false ∧
      (skinPixels (workingWidth envHeuristicBlue.naturalWidth envHeuristicBlue.naturalHeight)
        (workingHeight envHeuristicBlue.naturalWidth envHeuristicBlue.naturalHeight)
        envHeuristicBlue.raster).length < 100) ∧
    (detectFaceScan (workingWidth envHeuristicBlue.naturalWidth envHeuristicBlue.naturalHeight)
      (workingHeight envHeuristicBlue.naturalWidth envHeuristicBlue.naturalHeight)
      (canvasScale envHeuristicBlue.naturalWidth envHeuristicBlue.naturalHeight)
      envHeuristicBlue.raster = none ∧
    (detectFace envHeuristicBlue idleState).1 = none ∧
    (finalState envHeuristicBlue idleState).detectionResult = none) := by
  have hlen : (skinPixels
      (workingWidth envHeuristicBlue.naturalWidth envHeuristicBlue.naturalHeight)
      (workingHeight envHeuristicBlue.naturalWidth envHeuristicBlue.naturalHeight)
      envHeuristicBlue.raster).length < 100 := by
    show (skinPixels (workingWidth 1 300) (workingHeight 1 300) blueRaster).length < 100
    rw [workingWidth_one_300, workingHeight_one_300,
      skinPixels_const_nonskin 1 300 blueRaster (0, 0, 255) (fun _ _ => rfl)
        isSkinTone_blue]
    decide
  exact ⟨⟨rfl, hlen⟩, c4_insufficient_pixels envHeuristicBlue idleState rfl hlen⟩

/-- C7: `detectFace` never propagates a thrown fault: it is a total
function of the invocation environment; when no drawable 2D surface can be
obtained the heuristic resolves `none` without an error; and when face-box
acquisition faults (decode failure, platform detector rejection), the
caught run returns absent with the cached result cleared — the same
caller-visible output and final state as a clean no-face run. -/
theorem c7_fault_normalized (env envFault envClean : DetectEnv) (s : HookState)
    (hfault : getFaceBox envFault = Except.error ())
    (hclean : getFaceBox envClean = Except.ok none) :
    (detectFace envFault s).1 = none ∧
    finalState envFault s = ⟨false, none⟩ ∧
    (env.ctxAvailable = false → detectFaceWithCanvas env = Except.ok none) ∧
    (detectFace envFault s).1 = (detectFace envClean s).1 ∧
    finalState envFault s = finalState envClean s := by
  refine ⟨?_, ?_, ?_, ?_, ?_⟩
  · simp [detectFace, hfault]
  · simp [finalState, detectFace, hfault]
  · intro hctx
    simp [detectFaceWithCanvas, hctx]
  · simp [detectFace, hfault, hclean]
  · simp [finalState, detectFace, hfault, hclean]

/-- Witness for C7: a rejecting platform detector versus one returning no
faces. -/
theorem c7_fault_normalized_witness :
    (getFaceBox envNativeFailure = Except.error () ∧
      getFaceBox envNativeNoFaces = Except.ok none) ∧
    ((detectFace envNativeFailure idleState).1 = none ∧
      finalState envNativeFailure idleState = ⟨false, none⟩ ∧
      (envNoCtx.ctxAvailable = false → detectFaceWithCanvas envNoCtx = Except.ok none) ∧
      (detectFace envNativeFailure idleState).1 = (detectFace envNativeNoFaces idleState).1 ∧
      finalState envNativeFailure idleState = finalState envNativeNoFaces idleState) := by
  have hfault : getFaceBox envNativeFailure = Except.error () := rfl
  have hclean : getFaceBox envNativeNoFaces = Except.ok none := rfl
  exact ⟨⟨hfault, hclean⟩,
    c7_fault_normalized envNoCtx envNativeFailure envNativeNoFaces idleState hfault hclean⟩

/-- C8: every face box the heuristic fallback returns — surviving both the
100-pixel minimum and the aspect-ratio validation, for any source image
with native width and height at least 1 — has positive width and height
and nonnegative corner coordinates. -/
theorem c8_fallback_box_invariants (naturalWidth naturalHeight : ℕ)
    (img : ℕ → ℕ → ℕ × ℕ × ℕ)
    (hw : 1 ≤ naturalWidth) (hh : 1 ≤ naturalHeight) :
    (detectFaceScan (workingWidth naturalWidth naturalHeight)
      (workingHeight naturalWidth naturalHeight)
      (canvasScale naturalWidth naturalHeight) img).elim True
      (fun faceBox => 0 < faceBox.width ∧ 0 < faceBox.height ∧
        0 ≤ faceBox.x ∧ 0 ≤ faceBox.y) := by
  cases hdet : detectFaceScan (workingWidth naturalWidth naturalHeight)
      (workingHeight naturalWidth naturalHeight)
      (canvasScale naturalWidth naturalHeight) img with
  | none => trivial
  | some fb =>
    obtain ⟨hx, hy, hhp, hwp⟩ :=
      (detectFaceScan_some_facts _ _ _ _ fb hdet).2
        (canvasScale_pos naturalWidth naturalHeight hw hh)
    exact ⟨hwp, hhp, hx, hy⟩

/-- Witness for C8 at a 300-by-300 native image. -/
theorem c8_fallback_box_invariants_witness :
    1 ≤ 300 ∧ 1 ≤ 300 ∧
    (detectFaceScan (workingWidth 300 300) (workingHeight 300 300)
      (canvasScale 300 300) blueRaster).elim True
      (fun faceBox => 0 < faceBox.width ∧ 0 < faceBox.height ∧
        0 ≤ faceBox.x ∧ 0 ≤ faceBox.y) :=
  ⟨by norm_num, by norm_num,
    c8_fallback_box_invariants 300 300 blueRaster (by norm_num) (by norm_num)⟩

/-- C10: every non-absent result produced through the heuristic fallback
path (no platform detector, native dimensions at least 1) has landmark
values satisfying `0 ≤ eyeLineY ≤ chinY`. -/
theorem c10_landmark_order (env : DetectEnv) (s : HookState)
    (hsup : env.supported = false)
    (hw : 1 ≤ env.naturalWidth) (hh : 1 ≤ env.naturalHeight) :
    ((detectFace env s).1).elim True
      (fun result => 0 ≤ result.eyeLineY ∧ result.eyeLineY ≤ result.chinY) := by
  have hgf : getFaceBox env = detectFaceWithCanvas env := by
    simp [getFaceBox, hsup]
  by_cases hctx : env.ctxAvailable = false
  · have hg : getFaceBox env = Except.ok none := by
      rw [hgf]; simp [detectFaceWithCanvas, hctx]
    simp [detectFace, hg]
  · by_cases hrf : env.rasterFault = true
    · have hg : getFaceBox env = Except.error () := by
        rw [hgf]; simp [detectFaceWithCanvas, hctx, hrf]
      simp [detectFace, hg]
    · cases hdet : detectFaceScan (workingWidth env.naturalWidth env.naturalHeight)
          (workingHeight env.naturalWidth env.naturalHeight)
          (canvasScale env.naturalWidth env.naturalHeight) env.raster with
      | none =>
        have hg : getFaceBox env = Except.ok none := by
          rw [hgf]; simp [detectFaceWithCanvas, hctx, hrf, hdet]
        simp [detectFace, hg]
      | some fb =>
        have hg : getFaceBox env = Except.ok (some fb) := by
          rw [hgf]; simp [detectFaceWithCanvas, hctx, hrf, hdet]
        obtain ⟨hx, hy, hhp, hwp⟩ :=
          (detectFaceScan_some_facts _ _ _ _ fb hdet).2
            (canvasScale_pos env.naturalWidth env.naturalHeight hw hh)
        have hH : (0 : ℚ) < (env.naturalHeight : ℚ) := by
          have h1 : (1 : ℚ) ≤ (env.naturalHeight : ℚ) := by exact_mod_cast hh
          linarith
        simp only [detectFace, hg, computeLandmarks, Option.elim]
        refine ⟨?_, ?_⟩
        · have h35 : (0 : ℚ) ≤ fb.height * 0.35 :=
            mul_nonneg hhp.le (by norm_num)
          have hnum : (0 : ℚ) ≤ fb.y + fb.height * 0.35 := by linarith
          exact mul_nonneg (div_nonneg hnum hH.le) (by norm_num)
        · have hmono : fb.y + fb.height * 0.35 ≤ fb.y + fb.height := by
            nlinarith [hhp.le]
          rw [div_eq_mul_inv, div_eq_mul_inv]
          have hprod : (0 : ℚ) ≤
              (fb.y + fb.height - (fb.y + fb.height * 0.35)) * ((env.naturalHeight : ℚ))⁻¹ :=
            mul_nonneg (by linarith) (inv_nonneg.mpr hH.le)
          nlinarith [hprod]

/-- Witness for C10 at a 300-by-300 all-skin native image without a
platform detector. -/
theorem c10_landmark_order_witness :
    (envHeuristicSkin.supported = false ∧
      1 ≤ envHeuristicSkin.naturalWidth ∧ 1 ≤ envHeuristicSkin.naturalHeight) ∧
    ((detectFace envHeuristicSkin idleState).1).elim True
      (fun result => 0 ≤ result.eyeLineY ∧ result.eyeLineY ≤ result.chinY) :=
  ⟨⟨rfl, by decide, by decide⟩,
    c10_landmark_order envHeuristicSkin idleState rfl (by decide) (by decide)⟩
